import Mathlib

/-!
Verification of the reference-counter engine of `modules/renter/proto`
(per-contract, crash-consistent sector reference counts).

The repository ships the package's test file
(`modules/renter/proto/refcounter_test.go`); the implementation file
`refcounter.go` itself is not present, so the data model and the
operations below are modelled from the specification (on-disk layout,
update-session state machine, WAL update codec, mutation contracts),
with the test file pinning observable behaviour (error identities,
session requirements, file-size effects).

Bytes are modelled as natural numbers (`< 256` where produced by the
encoders), files as lists of bytes, the disk as a map from paths to
optional file contents, and machine integers as `Nat` with explicit
bounds (`2^64` for sector indices and counts, `2^16` for counter
values).
-/

namespace Proto

/-- Modelled from the spec: little-endian byte encoding of a `w`-byte
unsigned integer, as used by the on-disk counter format and the WAL
update codec of the missing `refcounter.go`. -/
def toLEBytes : Nat → Nat → List Nat
  | 0, _ => []
  | w + 1, n => n % 256 :: toLEBytes w (n / 256)

/-- Modelled from the spec: little-endian decoding of a byte list back
to a natural number. -/
def fromLEBytes : List Nat → Nat
  | [] => 0
  | b :: bs => b + 256 * fromLEBytes bs

/-- Modelled from the spec: the fixed header is 8 bytes (the format
version), declared in the missing `refcounter.go`. -/
def RefCounterHeaderSize : Nat := 8

/-- Modelled from the spec: the single supported on-disk format version
tag (8 bytes), declared in the missing `refcounter.go`. -/
def refCounterVersion : List Nat := [1, 0, 0, 0, 0, 0, 0, 0]

/-- Modelled from the spec: byte offset of sector `secIdx`'s 2-byte
counter, `headerSize + secIdx * 2` (helper `offset` of the missing
`refcounter.go`, referenced by the test's `writeVal`). -/
def offset (secIdx : Nat) : Nat := RefCounterHeaderSize + 2 * secIdx

/-- Modelled from the spec: length-prefixed byte encoding of a path
string inside a WAL update's instruction blob. -/
def encodeString (s : String) : List Nat :=
  toLEBytes 8 s.length ++ s.data.map Char.toNat

/-- Modelled from the spec: decoding of a length-prefixed path string,
returning the string and the remaining bytes. -/
def decodeString (bs : List Nat) : Option (String × List Nat) :=
  if bs.length < 8 then none
  else
    let n := fromLEBytes (bs.take 8)
    let rest := bs.drop 8
    if rest.length < n then none
    else some (String.mk ((rest.take n).map Char.ofNat), rest.drop n)

/-- Modelled from the spec: a generic WAL update record, a tagged blob
consisting of a kind discriminant and an opaque instruction byte blob
(`writeaheadlog.Update` as consumed by the missing `refcounter.go`). -/
structure Update where
  Name : String
  Instructions : List Nat
  deriving DecidableEq

/-- Modelled from the spec: kind discriminant of `WriteAt` records. -/
def updateNameRCWriteAt : String := "RC_WRITE_AT"

/-- Modelled from the spec: kind discriminant of `Truncate` records. -/
def updateNameRCTruncate : String := "RC_TRUNCATE"

/-- Modelled from the spec: kind discriminant of delete records. -/
def updateNameRCDelete : String := "RC_DELETE"

/-- Modelled from the spec: `createWriteAtUpdate` of the missing
`refcounter.go` encodes `(path, secIdx, value)` into a `WriteAt` WAL
record. -/
def createWriteAtUpdate (path : String) (secIdx : Nat) (value : Nat) : Update :=
  { Name := updateNameRCWriteAt,
    Instructions := encodeString path ++ toLEBytes 8 secIdx ++ toLEBytes 2 value }

/-- Modelled from the spec: `readWriteAtUpdate` of the missing
`refcounter.go` decodes a `WriteAt` record back to `(path, secIdx,
value)`; decoding must be lossless. -/
def readWriteAtUpdate (u : Update) : Option (String × Nat × Nat) :=
  if u.Name ≠ updateNameRCWriteAt then none
  else match decodeString u.Instructions with
    | none => none
    | some (path, rest) =>
      if rest.length < 10 then none
      else some (path, fromLEBytes (rest.take 8), fromLEBytes ((rest.drop 8).take 2))

/-- Modelled from the spec: `createTruncateUpdate` of the missing
`refcounter.go` encodes `(path, newSecCount)` into a `Truncate` WAL
record. -/
def createTruncateUpdate (path : String) (newSecCount : Nat) : Update :=
  { Name := updateNameRCTruncate,
    Instructions := encodeString path ++ toLEBytes 8 newSecCount }

/-- Modelled from the spec: `readTruncateUpdate` of the missing
`refcounter.go` decodes a `Truncate` record back to
`(path, newSecCount)`. -/
def readTruncateUpdate (u : Update) : Option (String × Nat) :=
  if u.Name ≠ updateNameRCTruncate then none
  else match decodeString u.Instructions with
    | none => none
    | some (path, rest) =>
      if rest.length < 8 then none
      else some (path, fromLEBytes (rest.take 8))

/-- Modelled from the spec: the file-removal record staged by
`DeleteRefCounter`, carrying the path of the backing file. -/
def createDeleteUpdate (path : String) : Update :=
  { Name := updateNameRCDelete, Instructions := encodeString path }

/-- Modelled from the spec: decoding of a delete record back to the
path of the file to remove. -/
def readDeleteUpdate (u : Update) : Option String :=
  if u.Name ≠ updateNameRCDelete then none
  else match decodeString u.Instructions with
    | none => none
    | some (path, _) => some path

/-- Modelled from the spec: the errors surfaced by the reference
counter (`ErrInvalidSectorNumber`, `ErrInvalidVersion`,
`ErrUpdateWithoutUpdateSession`, `ErrUpdateAfterDelete`, plus
structural I/O errors: not-found, truncated read, the application-level
decrement-below-zero rejection, and an unrecognized-record apply
failure). -/
inductive RCError where
  | ErrInvalidSectorNumber
  | ErrInvalidVersion
  | ErrUpdateWithoutUpdateSession
  | ErrUpdateAfterDelete
  | ErrEOF
  | ErrOSNotExist
  | ErrDecrementBelowZero
  | ErrBadUpdate
  deriving DecidableEq

/-- Modelled from the spec: the storage medium, mapping a file path to
the byte contents of the file at that path, if it exists. -/
def Disk : Type := String → Option (List Nat)

/-- Modelled from the spec: POSIX-style positioned write — writing
`bs` at byte offset `off` overlays the file there, zero-filling any gap
past the current end of file (the semantics of `WriteAt` applied to the
counter file). -/
def writeBytesAt (file : List Nat) (off : Nat) (bs : List Nat) : List Nat :=
  (file.take off ++ List.replicate (off - file.length) 0) ++
    (bs ++ file.drop (off + bs.length))

/-- Modelled from the spec: resizing a file to `newSize` bytes,
truncating from the tail (zero-filling if grown). -/
def truncateFile (file : List Nat) (newSize : Nat) : List Nat :=
  file.take newSize ++ List.replicate (newSize - file.length) 0

/-- Modelled from the spec: the `RefCounter` entity of the missing
`refcounter.go` — backing file path, on-disk version tag, logical
sector count, the staged in-memory overrides of the current session
(`newSectorCounts` in the test file), and the update-session state
machine flags (`sessionOpen`, `deletionStaged`, and the permanent
`deleted` mark set once a staged deletion is applied). -/
structure RefCounter where
  filepath : String
  version : List Nat
  numSectors : Nat
  newSectorCounts : Nat → Option Nat
  sessionOpen : Bool
  deletionStaged : Bool
  deleted : Bool

/-- Modelled from the spec: `NewRefCounter` creates the backing file —
version header followed by `numSec` counters all initialized to 1 — and
returns the fresh idle instance together with the updated disk. -/
def NewRefCounter (path : String) (numSec : Nat) (disk : Disk) :
    RefCounter × Disk :=
  ({ filepath := path
     version := refCounterVersion
     numSectors := numSec
     newSectorCounts := fun _ => none
     sessionOpen := false
     deletionStaged := false
     deleted := false },
   fun p => if p = path then
      some (refCounterVersion ++ List.flatten (List.replicate numSec (toLEBytes 2 1)))
    else disk p)

/-- Modelled from the spec: `LoadRefCounter` opens an existing file,
requires at least the 8-byte header (else a truncated-read error),
validates the version (else `ErrInvalidVersion`), and derives the
sector count as `(fileSize - headerSize) / 2`. -/
def LoadRefCounter (path : String) (disk : Disk) : Except RCError RefCounter :=
  match disk path with
  | none => .error .ErrOSNotExist
  | some bytes =>
    if bytes.length < RefCounterHeaderSize then .error .ErrEOF
    else if bytes.take RefCounterHeaderSize ≠ refCounterVersion then
      .error .ErrInvalidVersion
    else .ok
      { filepath := path
        version := refCounterVersion
        numSectors := (bytes.length - RefCounterHeaderSize) / 2
        newSectorCounts := fun _ => none
        sessionOpen := false
        deletionStaged := false
        deleted := false }

namespace RefCounter

/-- Modelled from the spec: `StartUpdate` opens an update session;
it fails with the after-delete error once the counter has been
permanently deleted. -/
def StartUpdate (rc : RefCounter) : Except RCError RefCounter :=
  if rc.deleted then .error .ErrUpdateAfterDelete
  else .ok { rc with sessionOpen := true }

/-- Modelled from the spec: reading the 2-byte little-endian counter of
`secIdx` from the backing file on disk. -/
def readCountFromDisk (rc : RefCounter) (disk : Disk) (secIdx : Nat) :
    Except RCError Nat :=
  match disk rc.filepath with
  | none => .error .ErrOSNotExist
  | some bytes =>
    if offset secIdx + 2 ≤ bytes.length then
      .ok (fromLEBytes ((bytes.drop (offset secIdx)).take 2))
    else .error .ErrEOF

/-- Modelled from the spec: `readCount` consults the staged override
for `secIdx` first and falls back to the on-disk value. -/
def readCount (rc : RefCounter) (disk : Disk) (secIdx : Nat) :
    Except RCError Nat :=
  match rc.newSectorCounts secIdx with
  | some v => .ok v
  | none => rc.readCountFromDisk disk secIdx

/-- Modelled from the spec: `Count` validates the sector index against
`[0, numSectors)` and returns the current (staged or on-disk) count; it
performs no session check (the test reads counts outside any
session). -/
def Count (rc : RefCounter) (disk : Disk) (secIdx : Nat) :
    Except RCError Nat :=
  if rc.numSectors ≤ secIdx then .error .ErrInvalidSectorNumber
  else rc.readCount disk secIdx

/-- Modelled from the spec: `Append` allocates one new trailing sector
with count 1 — a single `WriteAt` record and `numSectors + 1` staged in
memory; requires an open session and no staged deletion. -/
def Append (rc : RefCounter) : Except RCError (Update × RefCounter) :=
  if !rc.sessionOpen then .error .ErrUpdateWithoutUpdateSession
  else if rc.deletionStaged then .error .ErrUpdateAfterDelete
  else
    .ok (createWriteAtUpdate rc.filepath rc.numSectors 1,
      { rc with
        numSectors := rc.numSectors + 1
        newSectorCounts := fun j =>
          if j = rc.numSectors then some 1 else rc.newSectorCounts j })

/-- Modelled from the spec: `Increment` stages `current + 1` (16-bit
unsigned arithmetic) for a valid sector index and emits the
corresponding `WriteAt` record; requires an open session and no staged
deletion. -/
def Increment (rc : RefCounter) (disk : Disk) (secIdx : Nat) :
    Except RCError (Update × RefCounter) :=
  if !rc.sessionOpen then .error .ErrUpdateWithoutUpdateSession
  else if rc.deletionStaged then .error .ErrUpdateAfterDelete
  else if rc.numSectors ≤ secIdx then .error .ErrInvalidSectorNumber
  else match rc.readCount disk secIdx with
    | .error e => .error e
    | .ok count =>
      let count2 := (count + 1) % 65536
      .ok (createWriteAtUpdate rc.filepath secIdx count2,
        { rc with
          newSectorCounts := fun j =>
            if j = secIdx then some count2 else rc.newSectorCounts j })

/-- Modelled from the spec: `Decrement` rejects a current count of 0
(application-level error, no wraparound), otherwise stages
`current - 1` and emits the corresponding `WriteAt` record; requires an
open session and no staged deletion. -/
def Decrement (rc : RefCounter) (disk : Disk) (secIdx : Nat) :
    Except RCError (Update × RefCounter) :=
  if !rc.sessionOpen then .error .ErrUpdateWithoutUpdateSession
  else if rc.deletionStaged then .error .ErrUpdateAfterDelete
  else if rc.numSectors ≤ secIdx then .error .ErrInvalidSectorNumber
  else match rc.readCount disk secIdx with
    | .error e => .error e
    | .ok count =>
      if count = 0 then .error .ErrDecrementBelowZero
      else
        let count2 := count - 1
        .ok (createWriteAtUpdate rc.filepath secIdx count2,
          { rc with
            newSectorCounts := fun j =>
              if j = secIdx then some count2 else rc.newSectorCounts j })

/-- Modelled from the spec: `Swap` exchanges the counts at two valid
sector indices, staging both and emitting two `WriteAt` records;
requires an open session and no staged deletion. -/
def Swap (rc : RefCounter) (disk : Disk) (firstIdx secondIdx : Nat) :
    Except RCError (List Update × RefCounter) :=
  if !rc.sessionOpen then .error .ErrUpdateWithoutUpdateSession
  else if rc.deletionStaged then .error .ErrUpdateAfterDelete
  else if rc.numSectors ≤ firstIdx ∨ rc.numSectors ≤ secondIdx then
    .error .ErrInvalidSectorNumber
  else match rc.readCount disk firstIdx with
    | .error e => .error e
    | .ok firstVal =>
      match rc.readCount disk secondIdx with
      | .error e => .error e
      | .ok secondVal =>
        .ok ([createWriteAtUpdate rc.filepath firstIdx secondVal,
              createWriteAtUpdate rc.filepath secondIdx firstVal],
          { rc with
            newSectorCounts := fun j =>
              if j = firstIdx then some secondVal
              else if j = secondIdx then some firstVal
              else rc.newSectorCounts j })

/-- Modelled from the spec: `DropSectors` removes `numSec` trailing
sectors — a single `Truncate` record and `numSectors - numSec` staged
in memory; rejects `numSec > numSectors`; requires an open session and
no staged deletion. -/
def DropSectors (rc : RefCounter) (numSec : Nat) :
    Except RCError (Update × RefCounter) :=
  if !rc.sessionOpen then .error .ErrUpdateWithoutUpdateSession
  else if rc.deletionStaged then .error .ErrUpdateAfterDelete
  else if rc.numSectors < numSec then .error .ErrInvalidSectorNumber
  else
    .ok (createTruncateUpdate rc.filepath (rc.numSectors - numSec),
      { rc with numSectors := rc.numSectors - numSec })

/-- Modelled from the spec: `DeleteRefCounter` stages the permanent
deletion of the counter, freezing all further mutation in the session;
requires an open session and no staged deletion. -/
def DeleteRefCounter (rc : RefCounter) : Except RCError (Update × RefCounter) :=
  if !rc.sessionOpen then .error .ErrUpdateWithoutUpdateSession
  else if rc.deletionStaged then .error .ErrUpdateAfterDelete
  else .ok (createDeleteUpdate rc.filepath, { rc with deletionStaged := true })

end RefCounter

/-- Modelled from the spec: applying a single decoded WAL record to the
disk — a `WriteAt` writes the 2-byte value at the sector's offset, a
`Truncate` resizes the file to `headerSize + newSecCount * 2` bytes, a
delete record removes the file; unrecognized or undecodable records
fail. -/
def applyUpdate (disk : Disk) (u : Update) : Except RCError Disk :=
  if u.Name = updateNameRCWriteAt then
    match readWriteAtUpdate u with
    | none => .error .ErrBadUpdate
    | some (path, secIdx, value) =>
      match disk path with
      | none => .error .ErrOSNotExist
      | some f =>
        .ok (fun p => if p = path then
          some (writeBytesAt f (offset secIdx) (toLEBytes 2 value)) else disk p)
  else if u.Name = updateNameRCTruncate then
    match readTruncateUpdate u with
    | none => .error .ErrBadUpdate
    | some (path, newSecCount) =>
      match disk path with
      | none => .error .ErrOSNotExist
      | some f =>
        .ok (fun p => if p = path then
          some (truncateFile f (RefCounterHeaderSize + 2 * newSecCount))
        else disk p)
  else if u.Name = updateNameRCDelete then
    match readDeleteUpdate u with
    | none => .error .ErrBadUpdate
    | some path =>
      match disk path with
      | none => .error .ErrOSNotExist
      | some _ => .ok (fun p => if p = path then none else disk p)
  else .error .ErrBadUpdate

/-- Modelled from the spec: applying a batch of WAL records to the disk
in the order they were generated, stopping at the first failure. -/
def applyUpdates (disk : Disk) : List Update → Except RCError Disk
  | [] => .ok disk
  | u :: us =>
    match applyUpdate disk u with
    | .error e => .error e
    | .ok d => applyUpdates d us

/-- Modelled from the spec: `CreateAndApplyTransaction` requires an
open update session (else `ErrUpdateWithoutUpdateSession`), commits the
given records as one WAL transaction and applies them to the file in
order. -/
def RefCounter.CreateAndApplyTransaction (rc : RefCounter) (disk : Disk)
    (updates : List Update) : Except RCError Disk :=
  if !rc.sessionOpen then .error .ErrUpdateWithoutUpdateSession
  else applyUpdates disk updates

/-- Modelled from the spec: `UpdateApplied` ends the session — clears
the staged overrides and the session flag, and, if a deletion was
staged, marks the counter permanently deleted. -/
def RefCounter.UpdateApplied (rc : RefCounter) : RefCounter :=
  { rc with
    newSectorCounts := fun _ => none
    sessionOpen := false
    deletionStaged := false
    deleted := rc.deleted || rc.deletionStaged }

/-- Modelled from the spec: the empty storage medium. -/
def emptyDisk : Disk := fun _ => none

theorem toLEBytes_length (w n : Nat) : (toLEBytes w n).length = w := by
  induction w generalizing n with
  | zero => rfl
  | succ w ih => simp [toLEBytes, ih]

theorem fromLEBytes_toLEBytes (w n : Nat) (h : n < 256 ^ w) :
    fromLEBytes (toLEBytes w n) = n := by
  induction w generalizing n with
  | zero =>
    simp only [Nat.pow_zero, Nat.lt_one_iff] at h
    simp [h, toLEBytes, fromLEBytes]
  | succ w ih =>
    have hdiv : n / 256 < 256 ^ w := by
      rw [Nat.div_lt_iff_lt_mul (by norm_num)]
      calc n < 256 ^ (w + 1) := h
        _ = 256 ^ w * 256 := by ring
    simp only [toLEBytes, fromLEBytes, ih _ hdiv]
    omega

theorem decodeString_encodeString (s : String) (tail : List Nat)
    (h : s.length < 2 ^ 64) :
    decodeString (encodeString s ++ tail) = some (s, tail) := by
  have hlen8 : (toLEBytes 8 s.length).length = 8 := toLEBytes_length 8 _
  have hslen : s.length < 256 ^ 8 := by norm_num at h ⊢; omega
  have hmap : (s.data.map Char.toNat).length = s.length := by
    rw [List.length_map]; rfl
  simp only [encodeString, decodeString, List.append_assoc]
  rw [List.take_left' hlen8, List.drop_left' hlen8,
    fromLEBytes_toLEBytes 8 _ hslen,
    List.take_left' hmap, List.drop_left' hmap]
  have hnotshort : ¬(toLEBytes 8 s.length ++
      (s.data.map Char.toNat ++ tail)).length < 8 := by
    simp [hlen8]
  have hnotlong : ¬(s.data.map Char.toNat ++ tail).length < s.length := by
    simp [List.length_append, hmap]
  simp only [hnotshort, if_false, hnotlong, List.map_map]
  have : (Char.ofNat ∘ Char.toNat) = id := by
    funext c
    simp [Function.comp, Char.ofNat_toNat]
  rw [this, List.map_id]

theorem readWriteAtUpdate_createWriteAtUpdate (p : String) (s v : Nat)
    (hp : p.length < 2 ^ 64) (hs : s < 2 ^ 64) (hv : v < 2 ^ 16) :
    readWriteAtUpdate (createWriteAtUpdate p s v) = some (p, s, v) := by
  have hs' : s < 256 ^ 8 := by norm_num at hs ⊢; omega
  have hv' : v < 256 ^ 2 := by norm_num at hv ⊢; omega
  have hlen8 : (toLEBytes 8 s).length = 8 := toLEBytes_length 8 _
  rw [readWriteAtUpdate, createWriteAtUpdate, List.append_assoc]
  rw [decodeString_encodeString _ _ hp]
  rw [if_neg (by simp)]
  show (if (toLEBytes 8 s ++ toLEBytes 2 v).length < 10 then none
    else some (p, fromLEBytes ((toLEBytes 8 s ++ toLEBytes 2 v).take 8),
      fromLEBytes (((toLEBytes 8 s ++ toLEBytes 2 v).drop 8).take 2))) =
    some (p, s, v)
  rw [if_neg (by simp [List.length_append, hlen8, toLEBytes_length])]
  rw [List.take_left' hlen8, List.drop_left' hlen8,
    List.take_of_length_le (Nat.le_of_eq (toLEBytes_length 2 v)),
    fromLEBytes_toLEBytes 8 _ hs', fromLEBytes_toLEBytes 2 _ hv']

theorem readTruncateUpdate_createTruncateUpdate (p : String) (c : Nat)
    (hp : p.length < 2 ^ 64) (hc : c < 2 ^ 64) :
    readTruncateUpdate (createTruncateUpdate p c) = some (p, c) := by
  have hc' : c < 256 ^ 8 := by norm_num at hc ⊢; omega
  have hlen8 : (toLEBytes 8 c).length = 8 := toLEBytes_length 8 _
  rw [readTruncateUpdate, createTruncateUpdate]
  rw [decodeString_encodeString _ _ hp]
  rw [if_neg (by simp)]
  show (if (toLEBytes 8 c).length < 8 then none
    else some (p, fromLEBytes ((toLEBytes 8 c).take 8))) = some (p, c)
  rw [if_neg (by rw [hlen8]; omega)]
  rw [List.take_of_length_le (Nat.le_of_eq hlen8), fromLEBytes_toLEBytes 8 _ hc']

theorem readDeleteUpdate_createDeleteUpdate (p : String)
    (hp : p.length < 2 ^ 64) :
    readDeleteUpdate (createDeleteUpdate p) = some p := by
  rw [readDeleteUpdate, createDeleteUpdate]
  rw [show encodeString p = encodeString p ++ [] by simp,
    decodeString_encodeString _ _ hp]
  rw [if_neg (by simp)]

theorem writeBytesAt_prefix_length (f : List Nat) (off : Nat) :
    (f.take off ++ List.replicate (off - f.length) 0).length = off := by
  simp only [List.length_append, List.length_take, List.length_replicate]
  omega

theorem writeBytesAt_length (f : List Nat) (off : Nat) (bs : List Nat) :
    (writeBytesAt f off bs).length = max f.length (off + bs.length) := by
  simp only [writeBytesAt, List.length_append, List.length_take,
    List.length_replicate, List.length_drop]
  omega

theorem readBytesAt_writeBytesAt (f : List Nat) (off : Nat) (bs : List Nat) :
    ((writeBytesAt f off bs).drop off).take bs.length = bs := by
  unfold writeBytesAt
  rw [List.drop_left' (writeBytesAt_prefix_length f off), List.take_left]

theorem truncateFile_length (f : List Nat) (newSize : Nat) :
    (truncateFile f newSize).length = newSize := by
  simp only [truncateFile, List.length_append, List.length_take,
    List.length_replicate]
  omega

theorem createWriteAtUpdate_Name (p : String) (s v : Nat) :
    (createWriteAtUpdate p s v).Name = updateNameRCWriteAt := rfl

theorem createTruncateUpdate_Name (p : String) (c : Nat) :
    (createTruncateUpdate p c).Name = updateNameRCTruncate := rfl

theorem createDeleteUpdate_Name (p : String) :
    (createDeleteUpdate p).Name = updateNameRCDelete := rfl

theorem applyUpdate_writeAt (disk : Disk) (p : String) (s v : Nat)
    (f : List Nat) (hp : p.length < 2 ^ 64) (hs : s < 2 ^ 64)
    (hv : v < 2 ^ 16) (hf : disk p = some f) :
    applyUpdate disk (createWriteAtUpdate p s v) =
      .ok (fun q => if q = p then
        some (writeBytesAt f (offset s) (toLEBytes 2 v)) else disk q) := by
  rw [applyUpdate, createWriteAtUpdate_Name,
    if_pos (show updateNameRCWriteAt = updateNameRCWriteAt from rfl),
    readWriteAtUpdate_createWriteAtUpdate p s v hp hs hv]
  show (match disk p with
    | none => Except.error RCError.ErrOSNotExist
    | some f => .ok (fun q => if q = p then
        some (writeBytesAt f (offset s) (toLEBytes 2 v)) else disk q)) = _
  rw [hf]

theorem applyUpdate_truncate (disk : Disk) (p : String) (c : Nat)
    (f : List Nat) (hp : p.length < 2 ^ 64) (hc : c < 2 ^ 64)
    (hf : disk p = some f) :
    applyUpdate disk (createTruncateUpdate p c) =
      .ok (fun q => if q = p then
        some (truncateFile f (RefCounterHeaderSize + 2 * c)) else disk q) := by
  rw [applyUpdate, createTruncateUpdate_Name,
    if_neg (show ¬updateNameRCTruncate = updateNameRCWriteAt by decide),
    if_pos (show updateNameRCTruncate = updateNameRCTruncate from rfl),
    readTruncateUpdate_createTruncateUpdate p c hp hc]
  show (match disk p with
    | none => Except.error RCError.ErrOSNotExist
    | some f => .ok (fun q => if q = p then
        some (truncateFile f (RefCounterHeaderSize + 2 * c)) else disk q)) = _
  rw [hf]

theorem applyUpdate_delete (disk : Disk) (p : String) (f : List Nat)
    (hp : p.length < 2 ^ 64) (hf : disk p = some f) :
    applyUpdate disk (createDeleteUpdate p) =
      .ok (fun q => if q = p then none else disk q) := by
  rw [applyUpdate, createDeleteUpdate_Name,
    if_neg (show ¬updateNameRCDelete = updateNameRCWriteAt by decide),
    if_neg (show ¬updateNameRCDelete = updateNameRCTruncate by decide),
    if_pos (show updateNameRCDelete = updateNameRCDelete from rfl),
    readDeleteUpdate_createDeleteUpdate p hp]
  show (match disk p with
    | none => Except.error RCError.ErrOSNotExist
    | some _ => .ok (fun q => if q = p then none else disk q)) = _
  rw [hf]

theorem createAndApplyTransaction_open (rc : RefCounter) (disk : Disk)
    (us : List Update) (h : rc.sessionOpen = true) :
    rc.CreateAndApplyTransaction disk us = applyUpdates disk us := by
  rw [RefCounter.CreateAndApplyTransaction, h]; rfl

/-- C4: in an open session with no staged deletion, `Append` increases
`numSectors` by exactly 1 and returns the single `WriteAt` record
setting the new last slot's count to 1; applying the transaction
containing that record grows the backing file by exactly 2 bytes. -/
theorem C4_append_grows_by_one_sector (rc : RefCounter) (disk : Disk)
    (file : List Nat) (hopen : rc.sessionOpen = true)
    (hdel : rc.deletionStaged = false)
    (hfile : disk rc.filepath = some file)
    (hsize : file.length = RefCounterHeaderSize + 2 * rc.numSectors)
    (hpath : rc.filepath.length < 2 ^ 64) (hn : rc.numSectors < 2 ^ 64) :
    rc.Append.map (fun p => (p.1, p.2.numSectors)) =
      .ok (createWriteAtUpdate rc.filepath rc.numSectors 1,
        rc.numSectors + 1) ∧
    Except.bind rc.Append (fun p =>
      (p.2.CreateAndApplyTransaction disk [p.1]).map
        (fun d => (d rc.filepath).map List.length)) =
      .ok (some (file.length + 2)) := by
  have hApp : rc.Append =
      .ok (createWriteAtUpdate rc.filepath rc.numSectors 1,
        { rc with
          numSectors := rc.numSectors + 1
          newSectorCounts := fun j =>
            if j = rc.numSectors then some 1 else rc.newSectorCounts j }) := by
    rw [RefCounter.Append, hopen, hdel]; rfl
  constructor
  · rw [hApp]; rfl
  · rw [hApp]
    show (({ rc with
        numSectors := rc.numSectors + 1
        newSectorCounts := fun j =>
          if j = rc.numSectors then some 1 else rc.newSectorCounts j } :
        RefCounter).CreateAndApplyTransaction disk
          [createWriteAtUpdate rc.filepath rc.numSectors 1]).map
        (fun d => (d rc.filepath).map List.length) =
      .ok (some (file.length + 2))
    rw [createAndApplyTransaction_open
      { rc with
        numSectors := rc.numSectors + 1
        newSectorCounts := fun j =>
          if j = rc.numSectors then some 1 else rc.newSectorCounts j }
      disk [createWriteAtUpdate rc.filepath rc.numSectors 1] hopen]
    rw [applyUpdates,
      applyUpdate_writeAt disk rc.filepath rc.numSectors 1 file hpath hn
        (by norm_num) hfile]
    show (applyUpdates _ []).map (fun d => (d rc.filepath).map List.length) =
      .ok (some (file.length + 2))
    rw [applyUpdates]
    show Except.ok ((if rc.filepath = rc.filepath then
        some (writeBytesAt file (offset rc.numSectors) (toLEBytes 2 1))
      else disk rc.filepath).map List.length) = .ok (some (file.length + 2))
    rw [if_pos (show rc.filepath = rc.filepath from rfl)]
    show Except.ok (some
        (writeBytesAt file (offset rc.numSectors) (toLEBytes 2 1)).length) =
      .ok (some (file.length + 2))
    rw [writeBytesAt_length]
    congr 2
    simp only [toLEBytes_length, offset, RefCounterHeaderSize, hsize]
    omega

/-- Concrete three-sector counter with an open session, used as witness
input. -/
def openRC3 : RefCounter :=
  { (NewRefCounter "p" 3 emptyDisk).1 with sessionOpen := true }

/-- Concrete disk holding the freshly created three-sector counter
file. -/
def disk3 : Disk := (NewRefCounter "p" 3 emptyDisk).2

/-- Concrete byte contents of the freshly created three-sector counter
file: version header plus three counters of value 1. -/
def file3 : List Nat :=
  refCounterVersion ++ List.flatten (List.replicate 3 (toLEBytes 2 1))

/-- Witness for C4: appending to the three-sector counter stages
sector 3 with count 1 and grows the 14-byte file to 16 bytes. -/
theorem C4_append_grows_by_one_sector_witness :
    openRC3.Append.map (fun p => (p.1, p.2.numSectors)) =
      .ok (createWriteAtUpdate "p" 3 1, 4) ∧
    Except.bind openRC3.Append (fun p =>
      (p.2.CreateAndApplyTransaction disk3 [p.1]).map
        (fun d => (d "p").map List.length)) = .ok (some 16) :=
  C4_append_grows_by_one_sector openRC3 disk3 file3 rfl rfl rfl rfl
    (by decide) (by decide)

/-- C5: in an open session with no staged deletion, `DropSectors n`
with `n ≤ numSectors` decreases `numSectors` by exactly `n` and returns
the single `Truncate` record whose application shrinks the backing file
by exactly `2 * n` bytes, while `DropSectors n` with `n > numSectors`
is rejected with `ErrInvalidSectorNumber` and changes nothing. -/
theorem C5_dropSectors_truncates (rc : RefCounter) (disk : Disk)
    (file : List Nat) (n : Nat) (hopen : rc.sessionOpen = true)
    (hdel : rc.deletionStaged = false)
    (hfile : disk rc.filepath = some file)
    (hsize : file.length = RefCounterHeaderSize + 2 * rc.numSectors)
    (hpath : rc.filepath.length < 2 ^ 64) (hn64 : rc.numSectors < 2 ^ 64) :
    (n ≤ rc.numSectors →
      (rc.DropSectors n).map (fun p => (p.1, p.2.numSectors)) =
        .ok (createTruncateUpdate rc.filepath (rc.numSectors - n),
          rc.numSectors - n) ∧
      Except.bind (rc.DropSectors n) (fun p =>
        (p.2.CreateAndApplyTransaction disk [p.1]).map
          (fun d => (d rc.filepath).map List.length)) =
        .ok (some (file.length - 2 * n))) ∧
    (rc.numSectors < n →
      rc.DropSectors n = .error .ErrInvalidSectorNumber) := by
  constructor
  · intro hn
    have hDrop : rc.DropSectors n =
        .ok (createTruncateUpdate rc.filepath (rc.numSectors - n),
          { rc with numSectors := rc.numSectors - n }) := by
      rw [RefCounter.DropSectors, hopen, hdel, if_neg (Nat.not_lt.mpr hn)]
      rfl
    constructor
    · rw [hDrop]; rfl
    · rw [hDrop]
      show (({ rc with numSectors := rc.numSectors - n } :
          RefCounter).CreateAndApplyTransaction disk
            [createTruncateUpdate rc.filepath (rc.numSectors - n)]).map
          (fun d => (d rc.filepath).map List.length) =
        .ok (some (file.length - 2 * n))
      rw [createAndApplyTransaction_open
        { rc with numSectors := rc.numSectors - n } disk
        [createTruncateUpdate rc.filepath (rc.numSectors - n)] hopen]
      rw [applyUpdates, applyUpdate_truncate disk rc.filepath
        (rc.numSectors - n) file hpath (by omega) hfile]
      show (applyUpdates _ []).map
          (fun d => (d rc.filepath).map List.length) =
        .ok (some (file.length - 2 * n))
      rw [applyUpdates]
      show Except.ok ((if rc.filepath = rc.filepath then
          some (truncateFile file
            (RefCounterHeaderSize + 2 * (rc.numSectors - n)))
        else disk rc.filepath).map List.length) =
        .ok (some (file.length - 2 * n))
      rw [if_pos (show rc.filepath = rc.filepath from rfl)]
      show Except.ok (some (truncateFile file
          (RefCounterHeaderSize + 2 * (rc.numSectors - n))).length) =
        .ok (some (file.length - 2 * n))
      rw [truncateFile_length]
      congr 2
      simp only [RefCounterHeaderSize] at hsize ⊢
      omega
  · intro hn
    rw [RefCounter.DropSectors, hopen, hdel, if_pos hn]
    rfl

/-- Witness for C5: dropping 2 of the 3 sectors leaves 1 sector and
shrinks the 14-byte file to 10 bytes; dropping 99 sectors is
rejected. -/
theorem C5_dropSectors_truncates_witness :
    ((openRC3.DropSectors 2).map (fun p => (p.1, p.2.numSectors)) =
      .ok (createTruncateUpdate "p" 1, 1) ∧
    Except.bind (openRC3.DropSectors 2) (fun p =>
      (p.2.CreateAndApplyTransaction disk3 [p.1]).map
        (fun d => (d "p").map List.length)) = .ok (some 10)) ∧
    openRC3.DropSectors 99 = .error .ErrInvalidSectorNumber :=
  ⟨(C5_dropSectors_truncates openRC3 disk3 file3 2 rfl rfl rfl rfl
      (by decide) (by decide)).1 (by decide),
   (C5_dropSectors_truncates openRC3 disk3 file3 99 rfl rfl rfl rfl
      (by decide) (by decide)).2 (by decide)⟩

theorem loadRefCounter_some (path : String) (disk : Disk)
    (bytes : List Nat) (h : disk path = some bytes) :
    LoadRefCounter path disk =
      (if bytes.length < RefCounterHeaderSize then .error .ErrEOF
      else if bytes.take RefCounterHeaderSize ≠ refCounterVersion then
        .error .ErrInvalidVersion
      else .ok
        { filepath := path
          version := refCounterVersion
          numSectors := (bytes.length - RefCounterHeaderSize) / 2
          newSectorCounts := fun _ => none
          sessionOpen := false
          deletionStaged := false
          deleted := false }) := by
  rw [LoadRefCounter, h]

/-- C8: `LoadRefCounter` fails with the truncated-read error on a file
shorter than the 8-byte header, fails with `ErrInvalidVersion` on a
file of at least header size whose version field is not the single
supported version, and on a valid file returns a counter whose
`numSectors` equals `(fileSize - headerSize) / 2` (a file size not
aligned to the 2-byte counter width is not rejected — the division
floors, which is the corruption condition the spec notes). -/
theorem C8_load_validates_header (path : String) (disk : Disk)
    (bytes : List Nat) (hdisk : disk path = some bytes) :
    (bytes.length < RefCounterHeaderSize →
      LoadRefCounter path disk = .error .ErrEOF) ∧
    (RefCounterHeaderSize ≤ bytes.length →
      bytes.take RefCounterHeaderSize ≠ refCounterVersion →
      LoadRefCounter path disk = .error .ErrInvalidVersion) ∧
    (bytes.take RefCounterHeaderSize = refCounterVersion →
      (LoadRefCounter path disk).map RefCounter.numSectors =
        .ok ((bytes.length - RefCounterHeaderSize) / 2)) := by
  refine ⟨?_, ?_, ?_⟩
  · intro h
    rw [loadRefCounter_some path disk bytes hdisk, if_pos h]
  · intro hge hver
    rw [loadRefCounter_some path disk bytes hdisk,
      if_neg (Nat.not_lt.mpr hge), if_pos hver]
  · intro hver
    have hge : ¬bytes.length < RefCounterHeaderSize := by
      have hlen := congrArg List.length hver
      simp only [List.length_take, refCounterVersion, RefCounterHeaderSize,
        List.length_cons, List.length_nil] at hlen ⊢
      omega
    rw [loadRefCounter_some path disk bytes hdisk, if_neg hge,
      if_neg (not_not_intro hver)]
    rfl

/-- Concrete disk holding a 4-byte file, shorter than the 8-byte
header. -/
def shortDisk : Disk := fun p => if p = "p" then some [1, 2, 3, 4] else none

/-- Concrete disk holding a 16-byte file whose version field does not
match the supported version. -/
def badVersionDisk : Disk := fun p =>
  if p = "p" then some [9, 9, 9, 9, 9, 9, 9, 9, 1, 0, 1, 0, 1, 0, 1, 0]
  else none

/-- Witness for C8: a 4-byte file fails with the truncated-read error,
a wrong-version 16-byte file fails with `ErrInvalidVersion`, and the
valid 14-byte three-sector file loads with `numSectors = 3`. -/
theorem C8_load_validates_header_witness :
    LoadRefCounter "p" shortDisk = .error .ErrEOF ∧
    LoadRefCounter "p" badVersionDisk = .error .ErrInvalidVersion ∧
    (LoadRefCounter "p" disk3).map RefCounter.numSectors = .ok 3 :=
  ⟨(C8_load_validates_header "p" shortDisk [1, 2, 3, 4] rfl).1 (by decide),
   (C8_load_validates_header "p" badVersionDisk
      [9, 9, 9, 9, 9, 9, 9, 9, 1, 0, 1, 0, 1, 0, 1, 0] rfl).2.1
      (by decide) (by decide),
   (C8_load_validates_header "p" disk3 file3 rfl).2.2 (by decide)⟩

theorem mutators_frozen_after_delete (rc : RefCounter) (disk : Disk)
    (i j n : Nat) (hopen : rc.sessionOpen = true)
    (hdel : rc.deletionStaged = true) :
    rc.Append = .error .ErrUpdateAfterDelete ∧
    rc.Increment disk i = .error .ErrUpdateAfterDelete ∧
    rc.Decrement disk i = .error .ErrUpdateAfterDelete ∧
    rc.Swap disk i j = .error .ErrUpdateAfterDelete ∧
    rc.DropSectors n = .error .ErrUpdateAfterDelete ∧
    rc.DeleteRefCounter = .error .ErrUpdateAfterDelete := by
  refine ⟨?_, ?_, ?_, ?_, ?_, ?_⟩
  · rw [RefCounter.Append, hopen, hdel]; rfl
  · rw [RefCounter.Increment, hopen, hdel]; rfl
  · rw [RefCounter.Decrement, hopen, hdel]; rfl
  · rw [RefCounter.Swap, hopen, hdel]; rfl
  · rw [RefCounter.DropSectors, hopen, hdel]; rfl
  · rw [RefCounter.DeleteRefCounter, hopen, hdel]; rfl

/-- C2: once `DeleteRefCounter` has been staged in a session, every
further operation in that session — `Append`, `Increment`, `Decrement`,
`Swap`, `DropSectors` and another `DeleteRefCounter` — fails with
`ErrUpdateAfterDelete`; applying the staged delete transaction removes
the backing file from disk, and after `UpdateApplied` every future
`StartUpdate` on the instance fails with `ErrUpdateAfterDelete`. -/
theorem C2_delete_staged_freezes_then_kills (rc rc' : RefCounter)
    (u : Update) (disk : Disk) (file : List Nat) (i j n : Nat)
    (hdel : rc.DeleteRefCounter = .ok (u, rc'))
    (hfile : disk rc.filepath = some file)
    (hpath : rc.filepath.length < 2 ^ 64) :
    rc'.Append = .error .ErrUpdateAfterDelete ∧
    rc'.Increment disk i = .error .ErrUpdateAfterDelete ∧
    rc'.Decrement disk i = .error .ErrUpdateAfterDelete ∧
    rc'.Swap disk i j = .error .ErrUpdateAfterDelete ∧
    rc'.DropSectors n = .error .ErrUpdateAfterDelete ∧
    rc'.DeleteRefCounter = .error .ErrUpdateAfterDelete ∧
    (rc'.CreateAndApplyTransaction disk [u]).map (fun d => d rc.filepath) =
      .ok none ∧
    rc'.UpdateApplied.StartUpdate = .error .ErrUpdateAfterDelete := by
  rw [RefCounter.DeleteRefCounter] at hdel
  cases hso : rc.sessionOpen with
  | false => rw [hso] at hdel; simp at hdel
  | true =>
    rw [hso] at hdel
    cases hds : rc.deletionStaged with
    | true => rw [hds] at hdel; simp at hdel
    | false =>
      rw [hds] at hdel
      have hdel' : (createDeleteUpdate rc.filepath,
          ({ rc with sessionOpen := true, deletionStaged := true } :
            RefCounter)) = (u, rc') :=
        Except.ok.inj hdel
      injection hdel' with hu hrc'
      subst hu
      subst hrc'
      obtain ⟨h1, h2, h3, h4, h5, h6⟩ := mutators_frozen_after_delete
        { rc with sessionOpen := true, deletionStaged := true } disk i j n
        rfl rfl
      refine ⟨h1, h2, h3, h4, h5, h6, ?_, ?_⟩
      · rw [createAndApplyTransaction_open
          { rc with sessionOpen := true, deletionStaged := true }
          disk [createDeleteUpdate rc.filepath] rfl]
        rw [applyUpdates, applyUpdate_delete disk rc.filepath file hpath hfile]
        show (applyUpdates _ []).map (fun d => d rc.filepath) = .ok none
        rw [applyUpdates]
        show Except.ok (if rc.filepath = rc.filepath then none
          else disk rc.filepath) = .ok none
        rw [if_pos (show rc.filepath = rc.filepath from rfl)]
      · rw [RefCounter.UpdateApplied, RefCounter.StartUpdate]
        simp

theorem le_writeBytesAt_length (f : List Nat) (off v : Nat) :
    off + 2 ≤ (writeBytesAt f off (toLEBytes 2 v)).length := by
  rw [writeBytesAt_length, toLEBytes_length]
  omega

theorem readTwo_writeBytesAt (f : List Nat) (off v : Nat) (hv : v < 2 ^ 16) :
    fromLEBytes (((writeBytesAt f off (toLEBytes 2 v)).drop off).take 2) = v := by
  have h := readBytesAt_writeBytesAt f off (toLEBytes 2 v)
  rw [toLEBytes_length] at h
  rw [h, fromLEBytes_toLEBytes 2 v (by norm_num at hv ⊢; omega)]

theorem Increment_ok (rc : RefCounter) (disk : Disk) (i c : Nat)
    (hopen : rc.sessionOpen = true) (hdel : rc.deletionStaged = false)
    (hi : ¬rc.numSectors ≤ i) (hread : rc.readCount disk i = .ok c) :
    rc.Increment disk i =
      .ok (createWriteAtUpdate rc.filepath i ((c + 1) % 65536),
        { rc with newSectorCounts := fun j =>
            if j = i then some ((c + 1) % 65536)
            else rc.newSectorCounts j }) := by
  rw [RefCounter.Increment, hopen, hdel, if_neg hi, hread]
  rfl

theorem Decrement_ok (rc : RefCounter) (disk : Disk) (i c : Nat)
    (hopen : rc.sessionOpen = true) (hdel : rc.deletionStaged = false)
    (hi : ¬rc.numSectors ≤ i) (hread : rc.readCount disk i = .ok c)
    (hc0 : ¬c = 0) :
    rc.Decrement disk i =
      .ok (createWriteAtUpdate rc.filepath i (c - 1),
        { rc with newSectorCounts := fun j =>
            if j = i then some (c - 1) else rc.newSectorCounts j }) := by
  rw [RefCounter.Decrement, hopen, hdel, if_neg hi, hread]
  simp only []
  rw [if_neg hc0]
  rfl

theorem Decrement_zero (rc : RefCounter) (disk : Disk) (i : Nat)
    (hopen : rc.sessionOpen = true) (hdel : rc.deletionStaged = false)
    (hi : ¬rc.numSectors ≤ i) (hread : rc.readCount disk i = .ok 0) :
    rc.Decrement disk i = .error .ErrDecrementBelowZero := by
  rw [RefCounter.Decrement, hopen, hdel, if_neg hi, hread]
  rfl

/-- Concrete three-sector counter with the deletion staged in its open
session, used as witness input. -/
def deletedRC3 : RefCounter := { openRC3 with deletionStaged := true }

/-- Witness for C2: after staging the delete on the three-sector
counter, every operation fails, applying the delete removes the file,
and `StartUpdate` is rejected forever after. -/
theorem C2_delete_staged_freezes_then_kills_witness :
    deletedRC3.Append = .error .ErrUpdateAfterDelete ∧
    deletedRC3.Increment disk3 1 = .error .ErrUpdateAfterDelete ∧
    deletedRC3.Decrement disk3 1 = .error .ErrUpdateAfterDelete ∧
    deletedRC3.Swap disk3 1 2 = .error .ErrUpdateAfterDelete ∧
    deletedRC3.DropSectors 1 = .error .ErrUpdateAfterDelete ∧
    deletedRC3.DeleteRefCounter = .error .ErrUpdateAfterDelete ∧
    (deletedRC3.CreateAndApplyTransaction disk3
      [createDeleteUpdate "p"]).map (fun d => d "p") = .ok none ∧
    deletedRC3.UpdateApplied.StartUpdate = .error .ErrUpdateAfterDelete :=
  C2_delete_staged_freezes_then_kills openRC3 deletedRC3
    (createDeleteUpdate "p") disk3 file3 1 2 1 rfl rfl (by decide)

/-- C6: for every valid sector index `i` whose current count is the
16-bit value `c`, performing `Increment i` and then `Decrement i` in
one session and committing the two resulting records as one
transaction, then ending the session, leaves `Count i` equal to `c` —
the round-trip identity. -/
theorem C6_increment_decrement_roundtrip (rc rc1 rc2 : RefCounter)
    (u1 u2 : Update) (disk : Disk) (file : List Nat) (i c : Nat)
    (hc : rc.Count disk i = .ok c) (hc16 : c < 65536)
    (hInc : rc.Increment disk i = .ok (u1, rc1))
    (hDec : rc1.Decrement disk i = .ok (u2, rc2))
    (hfile : disk rc.filepath = some file)
    (hpath : rc.filepath.length < 2 ^ 64) (hi64 : i < 2 ^ 64) :
    Except.bind (rc2.CreateAndApplyTransaction disk [u1, u2])
      (fun d => rc2.UpdateApplied.Count d i) = .ok c := by
  have h65 : (2 : Nat) ^ 16 = 65536 := by norm_num
  cases hso : rc.sessionOpen with
  | false => rw [RefCounter.Increment, hso] at hInc; simp at hInc
  | true =>
  cases hds : rc.deletionStaged with
  | true => rw [RefCounter.Increment, hso, hds] at hInc; simp at hInc
  | false =>
  rw [RefCounter.Count] at hc
  by_cases hle : rc.numSectors ≤ i
  · rw [if_pos hle] at hc; simp at hc
  · rw [if_neg hle] at hc
    rw [Increment_ok rc disk i c hso hds hle hc] at hInc
    injection hInc with hp1
    injection hp1 with hu1 hrc1
    subst hu1
    -- field facts for the post-increment state
    have f1 : rc1.filepath = rc.filepath := by rw [← hrc1]
    have o1 : rc1.sessionOpen = true := by rw [← hrc1]; exact hso
    have d1 : rc1.deletionStaged = false := by rw [← hrc1]; exact hds
    have n1 : rc1.numSectors = rc.numSectors := by rw [← hrc1]
    have m1 : rc1.newSectorCounts i = some ((c + 1) % 65536) := by
      rw [← hrc1]; simp
    have hle1 : ¬rc1.numSectors ≤ i := by rw [n1]; exact hle
    have hread1 : rc1.readCount disk i = .ok ((c + 1) % 65536) := by
      rw [RefCounter.readCount, m1]
    by_cases h0 : (c + 1) % 65536 = 0
    · rw [Decrement_zero rc1 disk i o1 d1 hle1 (by rw [hread1, h0])] at hDec
      simp at hDec
    · rw [Decrement_ok rc1 disk i ((c + 1) % 65536) o1 d1 hle1 hread1 h0]
        at hDec
      injection hDec with hp2
      injection hp2 with hu2 hrc2
      subst hu2
      subst hrc2
      -- the two stored values
      have hv1 : (c + 1) % 65536 < 2 ^ 16 := by rw [h65]; omega
      have hv2 : (c + 1) % 65536 - 1 < 2 ^ 16 := by rw [h65]; omega
      have hp1' : rc1.filepath.length < 2 ^ 64 := by rw [f1]; exact hpath
      -- apply the two WriteAt records in order
      rw [createAndApplyTransaction_open
        { rc1 with newSectorCounts := fun j =>
            if j = i then some ((c + 1) % 65536 - 1)
            else rc1.newSectorCounts j }
        disk [createWriteAtUpdate rc.filepath i ((c + 1) % 65536),
          createWriteAtUpdate rc1.filepath i ((c + 1) % 65536 - 1)] o1]
      rw [applyUpdates, applyUpdate_writeAt disk rc.filepath i
        ((c + 1) % 65536) file hpath hi64 hv1 hfile]
      simp only []
      rw [applyUpdates, applyUpdate_writeAt
        (fun q => if q = rc.filepath then
          some (writeBytesAt file (offset i) (toLEBytes 2 ((c + 1) % 65536)))
        else disk q)
        rc1.filepath i ((c + 1) % 65536 - 1)
        (writeBytesAt file (offset i) (toLEBytes 2 ((c + 1) % 65536)))
        hp1' hi64 hv2
        (by rw [f1]; simp)]
      simp only []
      rw [applyUpdates]
      simp only [Except.bind]
      rw [RefCounter.Count, RefCounter.UpdateApplied]
      simp only []
      rw [n1, if_neg hle]
      rw [RefCounter.readCount]
      simp only []
      rw [RefCounter.readCountFromDisk]
      simp only [if_true]
      rw [if_pos (le_writeBytesAt_length
        (writeBytesAt file (offset i) (toLEBytes 2 ((c + 1) % 65536)))
        (offset i) ((c + 1) % 65536 - 1))]
      rw [readTwo_writeBytesAt
        (writeBytesAt file (offset i) (toLEBytes 2 ((c + 1) % 65536)))
        (offset i) ((c + 1) % 65536 - 1) hv2]
      have hcc : (c + 1) % 65536 - 1 = c := by omega
      rw [hcc]

/-- Concrete post-increment state of the three-sector counter: sector 1
staged at count 2. -/
def incRC3 : RefCounter :=
  { openRC3 with newSectorCounts := fun j =>
      if j = 1 then some 2 else openRC3.newSectorCounts j }

/-- Concrete post-decrement state: sector 1 staged back at count 1. -/
def decRC3 : RefCounter :=
  { incRC3 with newSectorCounts := fun j =>
      if j = 1 then some 1 else incRC3.newSectorCounts j }

/-- Witness for C6: incrementing then decrementing sector 1 of the
three-sector counter and committing both records leaves its count at
the original value 1. -/
theorem C6_increment_decrement_roundtrip_witness :
    Except.bind (decRC3.CreateAndApplyTransaction disk3
      [createWriteAtUpdate "p" 1 2, createWriteAtUpdate "p" 1 1])
      (fun d => decRC3.UpdateApplied.Count d 1) = .ok 1 :=
  C6_increment_decrement_roundtrip openRC3 incRC3 decRC3
    (createWriteAtUpdate "p" 1 2) (createWriteAtUpdate "p" 1 1)
    disk3 file3 1 1 rfl (by norm_num) rfl rfl rfl (by decide) (by norm_num)

/-- C9: for every path `p` (of machine-representable length), sector index
`s < 2^64` and value `v < 2^16`, decoding an encoded `WriteAt` record
recovers exactly the tuple `(p, s, v)`, and for every count `c < 2^64`
decoding an encoded `Truncate` record recovers exactly `(p, c)` — the WAL
update codec round-trips losslessly. -/
theorem C9_wal_codec_roundtrip (p : String) (s v c : Nat)
    (hp : p.length < 2 ^ 64) (hs : s < 2 ^ 64) (hv : v < 2 ^ 16)
    (hc : c < 2 ^ 64) :
    readWriteAtUpdate (createWriteAtUpdate p s v) = some (p, s, v) ∧
    readTruncateUpdate (createTruncateUpdate p c) = some (p, c) :=
  ⟨readWriteAtUpdate_createWriteAtUpdate p s v hp hs hv,
   readTruncateUpdate_createTruncateUpdate p c hp hc⟩

/-- Witness for C9 at the test's concrete values: path `"test/wp"`,
sector index 2, value 12, truncate count 2. -/
theorem C9_wal_codec_roundtrip_witness :
    readWriteAtUpdate (createWriteAtUpdate "test/wp" 2 12) =
      some ("test/wp", 2, 12) ∧
    readTruncateUpdate (createTruncateUpdate "test/wp" 2) =
      some ("test/wp", 2) :=
  C9_wal_codec_roundtrip "test/wp" 2 12 2 (by decide) (by norm_num)
    (by norm_num) (by norm_num)

/-- C10: `CreateAndApplyTransaction` is itself session-gated — invoked
while no update session is open it fails with
`ErrUpdateWithoutUpdateSession` for any batch of records (including an
empty or zero-value update), touching no file. -/
theorem C10_createAndApplyTransaction_requires_session (rc : RefCounter)
    (disk : Disk) (updates : List Update) (h : rc.sessionOpen = false) :
    rc.CreateAndApplyTransaction disk updates =
      .error .ErrUpdateWithoutUpdateSession := by
  rw [RefCounter.CreateAndApplyTransaction, h]
  rfl

/-- Witness for C10: a fresh three-sector counter with no session open
rejects applying the zero-value update. -/
theorem C10_createAndApplyTransaction_requires_session_witness :
    (NewRefCounter "p" 3 emptyDisk).1.CreateAndApplyTransaction
      (NewRefCounter "p" 3 emptyDisk).2 [{ Name := "", Instructions := [] }] =
      .error .ErrUpdateWithoutUpdateSession :=
  C10_createAndApplyTransaction_requires_session _ _ _ rfl

/-- C1 (as stated) is refuted for `Count`: on a freshly created
three-sector counter with no open session (`sessionOpen = false`),
`Count 0` succeeds with the initial value 1 instead of failing with
`ErrUpdateWithoutUpdateSession`. -/
theorem C1_count_without_session_counterexample :
    (NewRefCounter "p" 3 emptyDisk).1.sessionOpen = false ∧
    (NewRefCounter "p" 3 emptyDisk).1.Count
      (NewRefCounter "p" 3 emptyDisk).2 0 = .ok 1 :=
  ⟨rfl, rfl⟩

/-- C1 (amended): every mutating operation of the §4.4 table —
`Append`, `Increment`, `Decrement`, `Swap`, `DropSectors`,
`DeleteRefCounter` — invoked while no update session is open fails with
`ErrUpdateWithoutUpdateSession`, producing no WAL update record and no
change to `numSectors` or the staged overrides; `Count` is exempt: it
requires no session. -/
theorem C1_mutators_require_session (rc : RefCounter) (disk : Disk)
    (i j n : Nat) (h : rc.sessionOpen = false) :
    rc.Append = .error .ErrUpdateWithoutUpdateSession ∧
    rc.Increment disk i = .error .ErrUpdateWithoutUpdateSession ∧
    rc.Decrement disk i = .error .ErrUpdateWithoutUpdateSession ∧
    rc.Swap disk i j = .error .ErrUpdateWithoutUpdateSession ∧
    rc.DropSectors n = .error .ErrUpdateWithoutUpdateSession ∧
    rc.DeleteRefCounter = .error .ErrUpdateWithoutUpdateSession := by
  refine ⟨?_, ?_, ?_, ?_, ?_, ?_⟩
  · rw [RefCounter.Append, h]; rfl
  · rw [RefCounter.Increment, h]; rfl
  · rw [RefCounter.Decrement, h]; rfl
  · rw [RefCounter.Swap, h]; rfl
  · rw [RefCounter.DropSectors, h]; rfl
  · rw [RefCounter.DeleteRefCounter, h]; rfl

/-- Witness for C1 (amended): the six mutating operations all fail on a
fresh three-sector counter before `StartUpdate`. -/
theorem C1_mutators_require_session_witness :
    (NewRefCounter "p" 3 emptyDisk).1.Append =
      .error .ErrUpdateWithoutUpdateSession ∧
    (NewRefCounter "p" 3 emptyDisk).1.Increment
      (NewRefCounter "p" 3 emptyDisk).2 1 =
      .error .ErrUpdateWithoutUpdateSession ∧
    (NewRefCounter "p" 3 emptyDisk).1.Decrement
      (NewRefCounter "p" 3 emptyDisk).2 1 =
      .error .ErrUpdateWithoutUpdateSession ∧
    (NewRefCounter "p" 3 emptyDisk).1.Swap
      (NewRefCounter "p" 3 emptyDisk).2 1 2 =
      .error .ErrUpdateWithoutUpdateSession ∧
    (NewRefCounter "p" 3 emptyDisk).1.DropSectors 1 =
      .error .ErrUpdateWithoutUpdateSession ∧
    (NewRefCounter "p" 3 emptyDisk).1.DeleteRefCounter =
      .error .ErrUpdateWithoutUpdateSession :=
  C1_mutators_require_session _ _ 1 2 1 rfl

/-- C3: inside an open session with no staged deletion, every
sector-index-taking operation — `Count`, `Increment`, `Decrement`, and
`Swap` in either argument position — rejects any index
`i ≥ numSectors` with `ErrInvalidSectorNumber`, producing no WAL record
and no state change. -/
theorem C3_invalid_sector_number_rejected (rc : RefCounter) (disk : Disk)
    (i j : Nat) (hopen : rc.sessionOpen = true)
    (hdel : rc.deletionStaged = false) (hi : rc.numSectors ≤ i) :
    rc.Count disk i = .error .ErrInvalidSectorNumber ∧
    rc.Increment disk i = .error .ErrInvalidSectorNumber ∧
    rc.Decrement disk i = .error .ErrInvalidSectorNumber ∧
    rc.Swap disk i j = .error .ErrInvalidSectorNumber ∧
    rc.Swap disk j i = .error .ErrInvalidSectorNumber := by
  refine ⟨?_, ?_, ?_, ?_, ?_⟩
  · rw [RefCounter.Count, if_pos hi]
  · rw [RefCounter.Increment, hopen, hdel, if_pos hi]; rfl
  · rw [RefCounter.Decrement, hopen, hdel, if_pos hi]; rfl
  · rw [RefCounter.Swap, hopen, hdel, if_pos (Or.inl hi)]; rfl
  · rw [RefCounter.Swap, hopen, hdel, if_pos (Or.inr hi)]; rfl

/-- Witness for C3: a three-sector counter in an open session rejects
the out-of-range index 3 (`numSectors` itself) everywhere. -/
theorem C3_invalid_sector_number_rejected_witness :
    ({ (NewRefCounter "p" 3 emptyDisk).1 with sessionOpen := true } :
        RefCounter).Count (NewRefCounter "p" 3 emptyDisk).2 3 =
      .error .ErrInvalidSectorNumber ∧
    ({ (NewRefCounter "p" 3 emptyDisk).1 with sessionOpen := true } :
        RefCounter).Increment (NewRefCounter "p" 3 emptyDisk).2 3 =
      .error .ErrInvalidSectorNumber ∧
    ({ (NewRefCounter "p" 3 emptyDisk).1 with sessionOpen := true } :
        RefCounter).Decrement (NewRefCounter "p" 3 emptyDisk).2 3 =
      .error .ErrInvalidSectorNumber ∧
    ({ (NewRefCounter "p" 3 emptyDisk).1 with sessionOpen := true } :
        RefCounter).Swap (NewRefCounter "p" 3 emptyDisk).2 3 0 =
      .error .ErrInvalidSectorNumber ∧
    ({ (NewRefCounter "p" 3 emptyDisk).1 with sessionOpen := true } :
        RefCounter).Swap (NewRefCounter "p" 3 emptyDisk).2 0 3 =
      .error .ErrInvalidSectorNumber :=
  C3_invalid_sector_number_rejected _ _ 3 0 rfl rfl (Nat.le_refl 3)

/-- C7: inside an open session with no staged deletion, `Decrement` on
a valid sector whose current (staged or on-disk) count is 0 is rejected
with the application-level below-zero error and produces no WAL record —
the count never wraps around to 65535 — while `Decrement` on a count of
exactly 1 succeeds, emits the `WriteAt` record for value 0 and stages
the override 0. -/
theorem C7_decrement_floor (rc : RefCounter) (disk : Disk) (i : Nat)
    (hopen : rc.sessionOpen = true) (hdel : rc.deletionStaged = false)
    (hi : i < rc.numSectors) :
    (rc.readCount disk i = .ok 0 →
      rc.Decrement disk i = .error .ErrDecrementBelowZero) ∧
    (rc.readCount disk i = .ok 1 →
      (rc.Decrement disk i).map (fun p => (p.1, p.2.newSectorCounts i)) =
        .ok (createWriteAtUpdate rc.filepath i 0, some 0)) := by
  constructor
  · intro h0
    rw [RefCounter.Decrement, hopen, hdel, if_neg (Nat.not_le.mpr hi), h0]
    rfl
  · intro h1
    rw [RefCounter.Decrement, hopen, hdel, if_neg (Nat.not_le.mpr hi), h1]
    simp [Except.map]

/-- Concrete two-sector counter in an open session whose staged
overrides hold count 0 for sector 0 and count 1 for sector 1, used to
witness the decrement floor behaviour. -/
def overrideRC : RefCounter :=
  { filepath := "p"
    version := refCounterVersion
    numSectors := 2
    newSectorCounts := fun j => if j = 0 then some 0 else
      if j = 1 then some 1 else none
    sessionOpen := true
    deletionStaged := false
    deleted := false }

/-- Witness for C7: decrementing the zero count of sector 0 fails,
decrementing the count 1 of sector 1 stages 0. -/
theorem C7_decrement_floor_witness :
    overrideRC.Decrement emptyDisk 0 = .error .ErrDecrementBelowZero ∧
    (overrideRC.Decrement emptyDisk 1).map
      (fun p => (p.1, p.2.newSectorCounts 1)) =
      .ok (createWriteAtUpdate "p" 1 0, some 0) :=
  ⟨(C7_decrement_floor overrideRC emptyDisk 0 rfl rfl (by decide)).1 rfl,
   (C7_decrement_floor overrideRC emptyDisk 1 rfl rfl (by decide)).2 rfl⟩

end Proto
